import Mathlib

/-!
Verification of the superlinked_mcp_server repository: a shallow embedding of
its column-type detection, file normalization, schema/space building,
index/query assembly, recreate semantics, ingest counting, tool validation,
and module import wiring, with theorems checking the specification claims.
-/

namespace Superlinked

/-! ### String helpers (substring / startswith / endswith, as used by the code) -/

/-- Does the second list occur at the start of the first? -/
def listStartsWith : List Char → List Char → Bool
  | _, [] => true
  | [], _ :: _ => false
  | a :: as, b :: bs => a == b && listStartsWith as bs

/-- Does the second list occur somewhere inside the first? -/
def listHasSub : List Char → List Char → Bool
  | [], needle => needle.isEmpty
  | a :: as, needle => listStartsWith (a :: as) needle || listHasSub as needle

/-- Python `needle in hay` on strings. -/
def strContains (hay needle : String) : Bool :=
  listHasSub hay.toList needle.toList

/-- Python `s.startswith(p)`. -/
def strStartsWith (s p : String) : Bool :=
  listStartsWith s.toList p.toList

/-- Python `s.endswith(p)`. -/
def strEndsWith (s p : String) : Bool :=
  listStartsWith s.toList.reverse p.toList.reverse

/-- A single-quote character, used in error-message literals. -/
def sq : String := String.mk [Char.ofNat 39]

/-- `Path(p).name`: the final component of a path (after the last slash). -/
def pathName (p : String) : String :=
  String.mk ((p.toList.reverse.takeWhile (fun x => !(x == Char.ofNat 47))).reverse)

/-- `Path(p).stem`: final component without its last extension (a leading
dot, as in a hidden file, does not start an extension). -/
def pathStem (p : String) : String :=
  let name := pathName p
  match name.toList.reverse.dropWhile (fun x => !(x == Char.ofNat 46)) with
  | [] => name
  | _ :: rest => if rest.isEmpty then name else String.mk rest.reverse

/-- `Path(p).is_absolute()` on POSIX. -/
def pathIsAbsolute (p : String) : Bool :=
  strStartsWith p "/"

/-! ### Cell values of a tabular dataset

A pandas cell is either a number or a string; a missing value (NaN) is
modelled as `Option.none` around it. -/

inductive CellVal where
  | num (q : ℚ)
  | str (s : String)
deriving DecidableEq

/-- Python `str(value)` on a cell (exact digits of numbers are irrelevant here). -/
def pyStr : CellVal → String
  | .str s => s
  | .num q => toString q

/-- Python `int(value)`: truncates a number toward zero, parses a decimal
string, and raises (`none`) on a non-numeric string. -/
def strToInt : String → Option Int
  | s =>
    match s.toList with
    | [] => none
    | c :: cs =>
      let digits := if c == Char.ofNat 45 then cs else c :: cs
      if digits.isEmpty || !digits.all Char.isDigit then none
      else
        let n : ℕ := digits.foldl (fun acc d => acc * 10 + (d.toNat - 48)) 0
        some (if c == Char.ofNat 45 then -(n : Int) else (n : Int))

/-- Python `int(value)` on a cell. -/
def pyInt : CellVal → Option Int
  | .num q => some (Int.tdiv q.num q.den)
  | .str s => strToInt s

/-- `series.dropna()`: the non-missing cells. -/
def dropna (cells : List (Option CellVal)) : List CellVal :=
  cells.filterMap id

/-- `series.unique()`: distinct values, first occurrence kept (accumulator form). -/
def uniqueKeepFirstAux : List CellVal → List CellVal → List CellVal
  | [], _ => []
  | x :: xs, seen =>
    if x ∈ seen then uniqueKeepFirstAux xs seen
    else x :: uniqueKeepFirstAux xs (x :: seen)

/-- `series.unique().tolist()`. -/
def uniqueKeepFirst (l : List CellVal) : List CellVal :=
  uniqueKeepFirstAux l []

/-! ### Column-Type Detector (src/mcp_tools/mcp_utils.py, detect_column_type) -/

/-- One dataframe column: its pandas dtype string and its cells. -/
structure Column where
  dtype : String
  cells : List (Option CellVal)
deriving DecidableEq

/-- `df[col].between(0, 1).all()` (a missing value is not between 0 and 1). -/
def between01All (cells : List (Option CellVal)) : Bool :=
  cells.all fun c =>
    match c with
    | some (.num q) => decide (0 ≤ q) && decide (q ≤ 1)
    | _ => false

/-- `detect_column_type(df, col)`.  Returns `none` exactly where the Python
function raises: the `object`-dtype branch divides by the count of
non-missing values, a `ZeroDivisionError` when that count is zero. -/
def detect_column_type (c : Column) : Option String :=
  let dtype := c.dtype
  if strContains dtype "datetime" then some "recency"
  else if strContains dtype "float" || strContains dtype "int" then
    -- the 0-1-bounded check returns the same role on both arms
    if between01All c.cells then some "number" else some "number"
  else if dtype == "object" || strContains dtype "str" then
    let nm := dropna c.cells
    if nm.length == 0 then none
    else if ((uniqueKeepFirst nm).length : ℚ) / (nm.length : ℚ) < 1 / 10 then
      some "category"
    else some "text_similarity"
  else some "text_similarity"

/-- The detection policy exactly as the specification words it: recency for
time-typed, number for numeric (with no special case for 0-1-bounded
columns), category for string-typed with distinct ratio below 0.1,
text_similarity otherwise.  Stated for comparison with `detect_column_type`. -/
def spec_role (c : Column) : String :=
  if strContains c.dtype "datetime" then "recency"
  else if strContains c.dtype "float" || strContains c.dtype "int" then "number"
  else if (c.dtype == "object" || strContains c.dtype "str")
      && decide (((uniqueKeepFirst (dropna c.cells)).length : ℚ)
                    / ((dropna c.cells).length : ℚ) < 1 / 10) then "category"
  else "text_similarity"

/-! ### File Loader/Normalizer (src/file_processing.py) -/

/-- JSON values as loaded by `json.load`. -/
inductive JVal where
  | null
  | num (q : ℚ)
  | str (s : String)
  | obj (fields : List (String × JVal))

/-- `isinstance(v, dict)`. -/
def isDict : JVal → Bool
  | .obj _ => true
  | _ => false

/-- The fields of a JSON object (only applied to values known to be objects). -/
def jObjFields : JVal → List (String × JVal)
  | .obj fs => fs
  | _ => []

/-- `column_data.get(row_id, None)`. -/
def jGet (fields : List (String × JVal)) (key : String) : JVal :=
  match fields.find? (fun p => p.1 == key) with
  | some p => p.2
  | none => .null

/-- Python dict assignment `row[k] = v` (overwrite if present, else append). -/
def dictSet (d : List (String × JVal)) (k : String) (v : JVal) :
    List (String × JVal) :=
  if (d.find? (fun p => p.1 == k)).isSome then
    d.map (fun p => if p.1 == k then (k, v) else p)
  else d ++ [(k, v)]

/-- `_is_column_oriented_json(data)`: a dict all of whose values are dicts. -/
def is_column_oriented_json (data : JVal) : Bool :=
  match data with
  | .obj fields => fields.all (fun p => isDict p.2)
  | _ => false

/-- `_transform_column_oriented_json(data)`: pivot column-oriented JSON to a
list of row dicts.  `none` models the `StopIteration` that
`next(iter(data.values()))` raises on an empty dict. -/
def transform_column_oriented_json (data : List (String × JVal)) :
    Option (List (List (String × JVal))) :=
  match data with
  | [] => none
  | (_, firstCol) :: _ =>
    let row_ids := (jObjFields firstCol).map (fun p => p.1)
    some (row_ids.map (fun row_id =>
      data.foldl
        (fun row p => dictSet row p.1 (jGet (jObjFields p.2) row_id))
        [("id", JVal.str row_id)]))

/-- `_load_json`: the column-oriented path of the JSON loader.  The
row-oriented fallback delegates to `pandas.read_json`, an external
collaborator outside this model, so it is `none` here; the claims only
exercise the column-oriented path. -/
def load_json (data : JVal) : Option (List (List (String × JVal))) :=
  if is_column_oriented_json data then
    transform_column_oriented_json (jObjFields data)
  else none

/-! ### Configuration constants (src/config.py) -/

def EMBEDDING_MODEL : String := "sentence-transformers/all-mpnet-base-v2"
def TEXT_WEIGHT : ℚ := 1
def RECENCY_WEIGHT : ℚ := 3 / 10
def NUMBER_WEIGHT : ℚ := 3 / 10
def CATEGORY_WEIGHT : ℚ := 1 / 2

/-! ### DataFrame model

A loaded dataframe, column-oriented: column names with their cells. -/

structure DataFrame where
  cols : List (String × List (Option CellVal))
deriving DecidableEq

def DataFrame.columns (df : DataFrame) : List String :=
  df.cols.map (fun p => p.1)

/-- `df[col]` as a cell list (empty for a missing column; unreachable when
guarded by a `col in df.columns` check, as in the source). -/
def DataFrame.colCells (df : DataFrame) (c : String) : List (Option CellVal) :=
  ((df.cols.find? (fun p => p.1 == c)).map (fun p => p.2)).getD []

/-- `len(df)`: the row count. -/
def DataFrame.nRows (df : DataFrame) : ℕ :=
  ((df.cols.head?).map (fun p => p.2.length)).getD 0

/-! ### Schema/Space Builder (src/app.py) -/

/-- The framework space objects, by their construction parameters. -/
inductive Space where
  | textSim (col : String) (model : String)
  | recency (col : String) (periodDays : ℕ) (negFilter : ℚ)
  | number (col : String) (minVal maxVal : ℚ)
  | category (col : String) (categories : List String) (negFilter : ℚ)
      (uncategorizedAsCategory : Bool)
deriving DecidableEq

/-- `.text` attribute of a space; only a text-similarity space has one in the
source (accessing it elsewhere would raise, which never happens because the
anchor is always built by `create_text_space`). -/
def Space.textAttr : Space → String
  | .textSim col _ => col
  | _ => ""

/-- `create_text_space(schema, col)`: the space and its weight parameter. -/
def create_text_space (col : String) : Space × (String × ℚ) :=
  (.textSim col EMBEDDING_MODEL, (col ++ "_weight", TEXT_WEIGHT))

/-- `create_recency_space(schema, col)`. -/
def create_recency_space (col : String) : Space × (String × ℚ) :=
  (.recency col 300 (-(1 / 4)), (col ++ "_weight", RECENCY_WEIGHT))

/-- `create_number_space(schema, col)`. -/
def create_number_space (col : String) : Space × (String × ℚ) :=
  (.number col 0 1, (col ++ "_weight", NUMBER_WEIGHT))

/-- `create_category_space(schema, col, df)`: skipped (warning logged) when no
dataframe is available or the column is absent from it. -/
def create_category_space (df : Option DataFrame) (col : String) :
    Option (Space × (String × ℚ)) :=
  match df with
  | none => none
  | some df =>
    if col ∈ df.columns then
      let categories := (uniqueKeepFirst (dropna (df.colCells col))).map pyStr
      some (.category col categories 0 true, (col ++ "_weight", CATEGORY_WEIGHT))
    else none

/-- The loop body of `create_spaces`, with the accumulated spaces, weight
parameters, and the retained first text space. -/
def create_spaces_loop (df : Option DataFrame) :
    List (String × String) → List Space → List (String × ℚ) → Option Space →
    List Space × List (String × ℚ) × Option Space
  | [], spaces, weights, ts => (spaces, weights, ts)
  | (col, space_type) :: rest, spaces, weights, ts =>
    if space_type == "text_similarity" then
      let sw := create_text_space col
      let ts1 := if ts.isNone then some sw.1 else ts
      create_spaces_loop df rest (spaces ++ [sw.1]) (weights ++ [sw.2]) ts1
    else if space_type == "recency" then
      let sw := create_recency_space col
      create_spaces_loop df rest (spaces ++ [sw.1]) (weights ++ [sw.2]) ts
    else if space_type == "number" then
      let sw := create_number_space col
      create_spaces_loop df rest (spaces ++ [sw.1]) (weights ++ [sw.2]) ts
    else if space_type == "category" then
      match create_category_space df col with
      | some sw => create_spaces_loop df rest (spaces ++ [sw.1]) (weights ++ [sw.2]) ts
      | none => create_spaces_loop df rest spaces weights ts
    else
      create_spaces_loop df rest spaces weights ts

/-- `create_spaces(schema, column_mapping, df)`: all spaces, the weight
parameters, and the first text space (the query anchor).  The schema object
is not needed here because each space records its column name directly. -/
def create_spaces (column_mapping : List (String × String))
    (df : Option DataFrame) : List Space × List (String × ℚ) × Option Space :=
  create_spaces_loop df column_mapping [] [] none

/-- The per-column space construction rule implied by `create_spaces`:
`some` exactly when the role has constructible inputs. -/
def constructSpace (df : Option DataFrame) (p : String × String) : Option Space :=
  if p.2 == "text_similarity" then some (create_text_space p.1).1
  else if p.2 == "recency" then some (create_recency_space p.1).1
  else if p.2 == "number" then some (create_number_space p.1).1
  else if p.2 == "category" then (create_category_space df p.1).map (fun sw => sw.1)
  else none

/-- The per-column weight-parameter rule implied by `create_spaces`. -/
def constructWeight (df : Option DataFrame) (p : String × String) :
    Option (String × ℚ) :=
  if p.2 == "text_similarity" then some (create_text_space p.1).2
  else if p.2 == "recency" then some (create_recency_space p.1).2
  else if p.2 == "number" then some (create_number_space p.1).2
  else if p.2 == "category" then (create_category_space df p.1).map (fun sw => sw.2)
  else none

/-! ### Schema construction (src/app.py, build_schema_fields / create_schema_class) -/

inductive FieldType where
  | idField
  | stringField
  | timestampField
  | floatField
deriving DecidableEq

/-- `build_schema_fields(column_mapping)`. -/
def build_schema_fields (column_mapping : List (String × String)) :
    List (String × FieldType) :=
  ("id", .idField) :: column_mapping.filterMap (fun p =>
    if p.2 == "text_similarity" then some (p.1, FieldType.stringField)
    else if p.2 == "recency" then some (p.1, FieldType.timestampField)
    else if p.2 == "number" then some (p.1, FieldType.floatField)
    else if p.2 == "category" then some (p.1, FieldType.stringField)
    else none)

/-- Python `str.capitalize()`. -/
def pyCapitalize (s : String) : String :=
  match s.toList with
  | [] => ""
  | c :: cs => String.mk (c.toUpper :: cs.map Char.toLower)

structure Schema where
  name : String
  fields : List (String × FieldType)
deriving DecidableEq

/-- `create_schema_class(index_name, schema_fields)`. -/
def create_schema_class (index_name : String)
    (schema_fields : List (String × FieldType)) : Schema :=
  ⟨pyCapitalize index_name ++ "Schema", schema_fields⟩

/-! ### Index/Query Assembler (src/app.py) -/

inductive Index where
  | mk (spaces : List Space)
deriving DecidableEq

structure RestQuery where
  descriptor : String
  index : Index
  schema : Schema
  weights : List (String × ℚ)
  anchorTextCol : String
  searchParam : String
  limitParam : String
deriving DecidableEq

/-- `create_query(index, schema, weights, text_space, index_name)`:
no anchor text space means no query object. -/
def create_query (index : Index) (schema : Schema)
    (weights : List (String × ℚ)) (text_space : Option Space)
    (index_name : String) : Option RestQuery :=
  match text_space with
  | none => none
  | some ts =>
    some ⟨index_name ++ "_query", index, schema, weights, ts.textAttr,
          "search_query", "limit"⟩

inductive Source where
  | rest (schema : Schema)
deriving DecidableEq

/-- `create_data_sources(schema)`. -/
def create_data_sources (schema : Schema) : List Source :=
  [.rest schema]

/-! ### Metadata and index assembly (src/app.py, load_csv_if_needed /
process_single_index) -/

structure Metadata where
  csv_filename : Option String
  column_mapping : List (String × String)
deriving DecidableEq

/-- `load_csv_if_needed(csv_filename, column_mapping)`.  The file system is a
function from path to loaded dataframe; `none` also models a read error,
which the source catches and turns into `None`. -/
def load_csv_if_needed (files : String → Option DataFrame)
    (csv_filename : Option String) (column_mapping : List (String × String)) :
    Option DataFrame :=
  match csv_filename with
  | none => none
  | some fn =>
    if fn == "" then none
    else if column_mapping.any (fun p => p.2 == "category") then files fn
    else none

/-- `process_single_index(index_name, metadata)`: index, query, and sources,
or `(None, None, [])` when the mapping is empty or no space was built. -/
def process_single_index (files : String → Option DataFrame)
    (index_name : String) (metadata : Metadata) :
    Option Index × Option RestQuery × List Source :=
  let column_mapping := metadata.column_mapping
  if column_mapping.isEmpty then (none, none, [])
  else
    let df := load_csv_if_needed files metadata.csv_filename column_mapping
    let schema := create_schema_class index_name (build_schema_fields column_mapping)
    let sps := create_spaces column_mapping df
    if sps.1.isEmpty then (none, none, [])
    else
      let index := Index.mk sps.1
      (some index,
       create_query index schema sps.2.1 sps.2.2 index_name,
       create_data_sources schema)

/-! ### Generated app file (src/superlinked_utils.py, generate_app_file) -/

/-- The anchor chosen by `generate_app_file`: the for/break loop over the
mapping looking for the first text_similarity column. -/
def gen_app_text_space : List (String × String) → Option String
  | [] => none
  | (col, space_type) :: rest =>
    if space_type == "text_similarity" then some (col ++ "_space")
    else gen_app_text_space rest

/-- The default weight computed by `generate_app_file` for one column. -/
def gen_default_weight (weights : Option (List (String × ℚ)))
    (col space_type : String) : ℚ :=
  match weights with
  | some ws => (((ws.find? (fun p => p.1 == col)).map (fun p => p.2)).getD 1)
  | none => if space_type == "text_similarity" then 1 else 1 / 2

/-- The semantic content of a generated `app_{index}.py` artifact: the data
the emitted Python text is rendered from. -/
structure AppFileContent where
  index_name : String
  column_mapping : List (String × String)
  weightParams : List (String × ℚ)
  textSpaceName : Option String
  csv_path : String
deriving DecidableEq

/-- `generate_app_file(index_name, column_mapping, weights, csv_path)`:
the content written to `WORK_DIR / app_{index_name}.py`.  An absolute
csv path is reduced to its file name first. -/
def generate_app_file_content (index_name : String)
    (column_mapping : List (String × String))
    (weights : Option (List (String × ℚ))) (csv_path : String) :
    AppFileContent :=
  let csv_path1 := if pathIsAbsolute csv_path then pathName csv_path else csv_path
  { index_name := index_name
    column_mapping := column_mapping
    weightParams := column_mapping.map
      (fun p => (p.1 ++ "_weight", gen_default_weight weights p.1 p.2))
    textSpaceName := gen_app_text_space column_mapping
    csv_path := csv_path1 }

/-! ### Out-of-process backend state (src/superlinked_utils.py)

The observable state: generated artifacts in WORK_DIR, Qdrant collections
(each holding the list of dataframes loaded into it), and the running
server process. -/

structure SysState where
  workFiles : List (String × AppFileContent)
  qdrantCollections : List (String × List DataFrame)
  server : Option String
deriving DecidableEq

/-- The artifact file name for an index. -/
def app_file_name (index_name : String) : String :=
  "app_" ++ index_name ++ ".py"

/-- `pkill -9 -f superlinked.server`. -/
def pkillServer (s : SysState) : SysState :=
  { s with server := none }

/-- Deleting a Qdrant collection drops the collection with its data. -/
def deleteCollection (name : String) (s : SysState) : SysState :=
  { s with qdrantCollections :=
      s.qdrantCollections.filter (fun p => !(p.1 == name)) }

/-- A successful data-loader run appends the csv dataframe to the collection. -/
def loadIntoCollection (name : String) (df : DataFrame) (s : SysState) : SysState :=
  { s with qdrantCollections :=
      if (s.qdrantCollections.find? (fun p => p.1 == name)).isSome then
        s.qdrantCollections.map (fun p =>
          if p.1 == name then (p.1, p.2 ++ [df]) else p)
      else s.qdrantCollections ++ [(name, [df])] }

/-- `start_superlinked_server(index_name)`: any running server is killed and
the `app_{index_name}` module is started. -/
def start_superlinked_server_state (index_name : String) (s : SysState) : SysState :=
  { s with server := some ("app_" ++ index_name) }

structure CreateResult where
  status : String
  index_name : String
  document_count : Option ℕ
  message : String
deriving DecidableEq

/-- The `"exists"` message returned for a non-recreate call on an existing index. -/
def existsMessage (index_name : String) : String :=
  "Index " ++ sq ++ index_name ++ sq ++
    " already exists. Use query_index to search it, or set recreate=True to rebuild it."

/-- The fresh-creation tail of `create_index_and_load`: generate the app
file, start the server, trigger the data loader (`loaderOk` is whether the
fire-and-forget trigger succeeded), and report success. -/
def create_fresh (loaderOk : Bool) (s : SysState) (index_name csv_path : String)
    (column_mapping : List (String × String))
    (weights : Option (List (String × ℚ))) (df : DataFrame) :
    SysState × Except String CreateResult :=
  let content := generate_app_file_content index_name column_mapping weights csv_path
  let s1 : SysState :=
    { s with workFiles := s.workFiles ++ [(app_file_name index_name, content)] }
  let s2 := start_superlinked_server_state index_name s1
  let s3 := if loaderOk then loadIntoCollection "default" df s2 else s2
  (s3, .ok { status := "success", index_name := index_name,
             document_count := some df.nRows,
             message := "Index " ++ sq ++ index_name ++ sq ++
               " created and server started." })

/-- `create_index_and_load(csv_path, column_mapping, weights, recreate)`.
`files` is the readable file system; a missing csv raises
`FileNotFoundError` (`Except.error`). -/
def create_index_and_load (files : String → Option DataFrame) (loaderOk : Bool)
    (s : SysState) (csv_path : String) (column_mapping : List (String × String))
    (weights : Option (List (String × ℚ))) (recreate : Bool) :
    SysState × Except String CreateResult :=
  let index_name := pathStem csv_path
  match files csv_path with
  | none => (s, .error ("CSV file not found: " ++ csv_path))
  | some df =>
    if (s.workFiles.find? (fun p => p.1 == app_file_name index_name)).isSome then
      if recreate then
        let s1 := pkillServer s
        let s2 : SysState :=
          { s1 with workFiles :=
              s1.workFiles.filter (fun p => !(p.1 == app_file_name index_name)) }
        let s3 := deleteCollection "default" s2
        create_fresh loaderOk s3 index_name csv_path column_mapping weights df
      else
        (s, .ok { status := "exists", index_name := index_name,
                  document_count := none,
                  message := existsMessage index_name })
    else
      create_fresh loaderOk s index_name csv_path column_mapping weights df

/-- `list_indexes()`: scan WORK_DIR for files matching `app_*.py` and strip
the `app_` prefix from each stem. -/
def list_indexes (s : SysState) : List String :=
  s.workFiles.filterMap (fun p =>
    if strStartsWith p.1 "app_" && strEndsWith p.1 ".py" then
      let file_name := pathStem p.1
      if strStartsWith file_name "app_" then
        some (String.mk (file_name.toList.drop 4))
      else none
    else none)

/-- The existence check at the head of `query_index`: `some message` is the
`ValueError` raised when the index's app file does not exist, `none` means
the query proceeds (the HTTP search itself is the external framework). -/
def query_index_check (work_dir : String) (s : SysState) (index_name : String) :
    Option String :=
  if (s.workFiles.find? (fun p => p.1 == app_file_name index_name)).isSome then
    none
  else
    some ("Index " ++ sq ++ index_name ++ sq ++ " not found. App file " ++
      work_dir ++ "/app_" ++ index_name ++ ".py does not exist.")

/-! ### Row-by-row ingest (src/mcp_tools/mcp_utils.py, ingest_csv_data) -/

/-- A value placed into the JSON payload of one ingest request. -/
inductive PVal where
  | s (v : String)
  | n (v : ℚ)
  | i (v : Int)
deriving DecidableEq

/-- A non-recency cell forwarded unchanged. -/
def pvalOfCell : CellVal → PVal
  | .num q => .n q
  | .str v => .s v

/-- One csv row as pandas iterates it: column name to cell. -/
def Row := List (String × Option CellVal)

/-- The mapped-column loop of the per-row ingest body; `none` models an
exception inside the row's `try` block (e.g. `int()` on a malformed
timestamp), which makes that row count as one error. -/
def add_mapped_cols (row : Row) :
    List (String × String) → List (String × PVal) → Option (List (String × PVal))
  | [], acc => some acc
  | (col, role) :: rest, acc =>
    match row.find? (fun p => p.1 == col) with
    | none => add_mapped_cols row rest acc
    | some cell =>
      match cell.2 with
      | none => add_mapped_cols row rest acc
      | some v =>
        if role == "recency" then
          match pyInt v with
          | none => none
          | some i => add_mapped_cols row rest (acc ++ [(col, .i i)])
        else add_mapped_cols row rest (acc ++ [(col, pvalOfCell v)])

/-- Build one row's ingest payload: `id` (a `KeyError` when the csv has no
id column fails the row) followed by the mapped columns. -/
def build_row_dict (column_mapping : List (String × String)) (row : Row) :
    Option (List (String × PVal)) :=
  match row.find? (fun p => p.1 == "id") with
  | none => none
  | some idcell =>
    let idStr := match idcell.2 with
      | none => "nan"
      | some c => pyStr c
    add_mapped_cols row column_mapping [("id", .s idStr)]

/-- The row loop of `ingest_csv_data`, accumulating the two counters.
`respond` gives the HTTP status the server returns for a posted payload. -/
def ingest_loop (respond : List (String × PVal) → ℕ)
    (column_mapping : List (String × String)) :
    List Row → ℕ → ℕ → ℕ × ℕ
  | [], ingested, errors => (ingested, errors)
  | row :: rest, ingested, errors =>
    match build_row_dict column_mapping row with
    | none => ingest_loop respond column_mapping rest ingested (errors + 1)
    | some payload =>
      let status := respond payload
      if status == 200 || status == 202 then
        ingest_loop respond column_mapping rest (ingested + 1) errors
      else
        ingest_loop respond column_mapping rest ingested (errors + 1)

/-- `ingest_csv_data(csv_path, index_name, column_mapping)`: the returned
`{ingested, errors}` pair. -/
def ingest_csv_data (respond : List (String × PVal) → ℕ)
    (column_mapping : List (String × String)) (rows : List Row) : ℕ × ℕ :=
  ingest_loop respond column_mapping rows 0 0

/-! ### create_index tool validation (src/mcp_server.py) -/

/-- The closed set accepted by the validating `create_index` tool. -/
def valid_types : List String := ["text_similarity", "recency", "number"]

inductive CreateIndexOutcome where
  | errorFileNotFound (path : String)
  | errorInvalidSpaceType (col role : String)
  | errorNoTextSimilarity
  | proceed
deriving DecidableEq

/-- The synchronous validation prefix of the `create_index` tool: file
existence, the role whitelist (first offending column reported), and the
mandatory text_similarity column.  Every outcome is returned as a JSON
value; the surrounding `try/except` keeps exceptions inside the tool. -/
def create_index_validate (fileExists : Bool) (csv_path : String)
    (column_mapping : List (String × String)) : CreateIndexOutcome :=
  if !fileExists then .errorFileNotFound csv_path
  else
    match column_mapping.find? (fun p => !(valid_types.contains p.2)) with
    | some p => .errorInvalidSpaceType p.1 p.2
    | none =>
      if column_mapping.any (fun p => p.2 == "text_similarity") then .proceed
      else .errorNoTextSimilarity

/-! ### Module import wiring of the in-memory variant
(src/mcp_tools/mcp_server.py and src/mcp_tools/mcp_utils.py) -/

/-- The names `from config import *` puts in scope (src/config.py module
level, imports included). -/
def config_star_names : List String :=
  ["os", "Path", "load_dotenv", "QDRANT_URL", "EMBEDDING_MODEL",
   "TEXT_WEIGHT", "RECENCY_WEIGHT", "NUMBER_WEIGHT", "CATEGORY_WEIGHT",
   "CHUNK_SIZE", "CHUNK_OVERLAP", "SERVER_PORT", "SERVER_STARTUP_TIMEOUT",
   "DATA_LOAD_WAIT", "DEBUG_MODE", "DEBUG_TIMEOUT", "WORK_DIR"]

/-- The module-level attributes of `mcp_tools/mcp_utils.py`: its imports,
the star import from config, and its three function definitions. -/
def mcp_utils_attrs : List String :=
  ["pd", "subprocess", "time", "requests", "sys", "os", "Path", "Dict", "json"]
    ++ config_star_names
    ++ ["detect_column_type", "start_superlinked_server", "ingest_csv_data"]

/-- The names `mcp_tools/mcp_server.py` imports from `mcp_utils`. -/
def mcp_tools_server_import_list : List String :=
  ["start_superlinked_server", "wait_for_server", "ingest_csv_data"]

/-- A Python `from m import a, b, c` succeeds only if every name is a module
attribute; otherwise the importing module fails to load. -/
def mcp_tools_server_loads : Bool :=
  mcp_tools_server_import_list.all (fun n => mcp_utils_attrs.contains n)

/-- A tool of the module can only run if the module loaded; in particular
its `create_index` (which calls `wait_for_server` after starting the
server) is reachable only through a successful load. -/
def mcp_tools_create_index_runnable : Bool :=
  mcp_tools_server_loads

/-! ### Concrete instances used by witnesses and counterexamples -/

def c3df : DataFrame := ⟨[("t", [some (.str "hello world")])]⟩
def c3oldDf : DataFrame := ⟨[("t", [some (.str "old row")])]⟩
def c3files : String → Option DataFrame :=
  fun p => if p == "data.csv" then some c3df else none
def c3oldContent : AppFileContent :=
  generate_app_file_content "data" [("t", "text_similarity"), ("x", "number")] none "data.csv"
def c3state : SysState :=
  ⟨[("app_data.py", c3oldContent)], [("default", [c3oldDf])], some "app_data"⟩

def c4State : SysState :=
  ⟨[("app_bar.py", generate_app_file_content "bar" [("t", "text_similarity")] none "bar.csv")],
   [], none⟩
def c4Msg : String :=
  "Index " ++ sq ++ "foo" ++ sq ++ " not found. App file /work/app_foo.py does not exist."

end Superlinked

namespace Superlinked

/-! ### Helper lemmas -/

theorem listStartsWith_append (n t : List Char) : listStartsWith (n ++ t) n = true := by
  induction n with
  | nil => cases t <;> rfl
  | cons c cs ih => simp [listStartsWith, ih]

theorem listHasSub_of_startsWith (l n : List Char)
    (h : listStartsWith l n = true) : listHasSub l n = true := by
  cases l with
  | nil =>
    cases n with
    | nil => rfl
    | cons c cs => exact absurd h (by simp [listStartsWith])
  | cons c cs => simp [listHasSub, h]

theorem listHasSub_append_left (a l n : List Char)
    (h : listHasSub l n = true) : listHasSub (a ++ l) n = true := by
  induction a with
  | nil => simpa
  | cons c cs ih => simp [listHasSub, ih]

theorem filter_of_antifilter {α : Type} (p : α → Bool) (l : List α) :
    (l.filter (fun x => !(p x))).filter p = [] := by
  induction l with
  | nil => rfl
  | cons c cs ih =>
    by_cases h : p c = true <;> simp [List.filter, h, ih]

theorem find?_of_antifilter {α : Type} (p : α → Bool) (l : List α) :
    (l.filter (fun x => !(p x))).find? p = none := by
  induction l with
  | nil => rfl
  | cons c cs ih =>
    by_cases h : p c = true <;> simp [List.filter, List.find?, h, ih]

theorem find?_append_none {α : Type} (p : α → Bool) (a b : List α)
    (h : a.find? p = none) : (a ++ b).find? p = b.find? p := by
  induction a with
  | nil => simp
  | cons c cs ih =>
    rw [List.cons_append]
    cases hc : p c with
    | true => rw [List.find?_cons_of_pos _ hc] at h; exact absurd h (by simp)
    | false =>
      rw [List.find?_cons_of_neg _ (by simp [hc])] at h
      rw [List.find?_cons_of_neg _ (by simp [hc])]
      exact ih h

theorem str_append_assoc (a b c : String) : a ++ b ++ c = a ++ (b ++ c) := by
  cases a; cases b; cases c
  show String.mk _ = String.mk _
  rw [List.append_assoc]

theorem strContains_here (n b : String) : strContains (n ++ b) n = true := by
  have hdata : (n ++ b).toList = n.toList ++ b.toList := by
    cases n; cases b; rfl
  unfold strContains
  rw [hdata]
  exact listHasSub_of_startsWith _ _ (listStartsWith_append _ _)

theorem strContains_cons (x y n : String) (h : strContains y n = true) :
    strContains (x ++ y) n = true := by
  have hdata : (x ++ y).toList = x.toList ++ y.toList := by
    cases x; cases y; rfl
  unfold strContains at h ⊢
  rw [hdata]
  exact listHasSub_append_left _ _ _ h

theorem detect_eq_spec_role (c : Column)
    (h : (c.dtype == "object" || strContains c.dtype "str") = true →
      0 < (dropna c.cells).length) :
    detect_column_type c = some (spec_role c) := by
  unfold detect_column_type spec_role
  by_cases h1 : strContains c.dtype "datetime" = true
  · simp [h1]
  · by_cases h2 : (strContains c.dtype "float" || strContains c.dtype "int") = true
    · simp [h1, h2]
    · by_cases h3 : (c.dtype == "object" || strContains c.dtype "str") = true
      · have hn : (dropna c.cells).length ≠ 0 := Nat.pos_iff_ne_zero.mp (h h3)
        simp only [h1, h2, h3, hn, if_true, if_false, Bool.false_eq_true,
          if_neg, ite_false, ite_true, beq_iff_eq]
        simp [hn]
        split <;> rfl
      · simp [h1, h2, h3]

/-- C6: for every column (whose string-typed case has at least one
non-missing value, the precondition under which the detector returns at
all), `detect_column_type` returns exactly the role the specification's
policy assigns: recency for a time-typed dtype, number for a numeric dtype
with no behavioral special case for 0-1-bounded values, category for a
string-typed column whose distinct-to-total ratio of non-missing values is
below 0.1, and text_similarity otherwise (`spec_role` is that policy,
stated from the specification's words). -/
theorem detect_column_type_policy (c : Column)
    (h : (c.dtype == "object" || strContains c.dtype "str") = true →
      0 < (dropna c.cells).length) :
    detect_column_type c = some (spec_role c) :=
  detect_eq_spec_role c h

/-- Witness for C6 at a concrete string column with two distinct values. -/
theorem detect_column_type_policy_witness :
    detect_column_type ⟨"object", [some (.str "a"), some (.str "b")]⟩ =
      some (spec_role ⟨"object", [some (.str "a"), some (.str "b")]⟩) :=
  detect_column_type_policy ⟨"object", [some (.str "a"), some (.str "b")]⟩ (by decide)

/-- C10: `detect_column_type` is partial on string-typed columns with no
non-missing value: on an all-missing object-dtype column the distinct-ratio
division has denominator zero and the function raises (modelled `none`);
under the precondition that every string-typed column has at least one
non-missing value it always returns a role. -/
theorem detect_column_type_allmissing :
    detect_column_type ⟨"object", [none, none]⟩ = none ∧
    ∀ c : Column,
      ((c.dtype == "object" || strContains c.dtype "str") = true →
        0 < (dropna c.cells).length) →
      (detect_column_type c).isSome = true := by
  constructor
  · decide
  · intro c h
    rw [detect_eq_spec_role c h]
    rfl

/-- Witness for C10's totality part at a concrete numeric column. -/
theorem detect_column_type_allmissing_witness :
    (detect_column_type ⟨"float64", [some (.num 2)]⟩).isSome = true :=
  detect_column_type_allmissing.2 ⟨"float64", [some (.num 2)]⟩ (by decide)

/-- C5: the column-oriented JSON input is detected as column-oriented and
normalizes to the row-oriented records with the id taken from the
per-column row keys. -/
theorem column_oriented_roundtrip :
    is_column_oriented_json
      (.obj [("a", .obj [("0", .num 1), ("1", .num 2)]),
             ("b", .obj [("0", .str "x"), ("1", .str "y")])]) = true ∧
    load_json
      (.obj [("a", .obj [("0", .num 1), ("1", .num 2)]),
             ("b", .obj [("0", .str "x"), ("1", .str "y")])]) =
      some [[("id", .str "0"), ("a", .num 1), ("b", .str "x")],
            [("id", .str "1"), ("a", .num 2), ("b", .str "y")]] :=
  ⟨rfl, rfl⟩

/-- C9: the in-memory-variant MCP server module imports `wait_for_server`
from `mcp_utils`, which defines no attribute of that name, so the module
fails to load and its `create_index` tool is unrunnable. -/
theorem inmemory_server_import_fails :
    mcp_utils_attrs.contains "wait_for_server" = false ∧
    "wait_for_server" ∈ mcp_tools_server_import_list ∧
    mcp_tools_server_loads = false ∧
    mcp_tools_create_index_runnable = false := by
  decide

/-- C7 counterexample: a mapping whose roles all lie in the claimed closed
set {text_similarity, recency, number, category} and which has a
text_similarity column is nevertheless rejected by the create_index
validation: "category" is not an accepted space type there. -/
theorem category_role_rejected_counterexample :
    (∀ p ∈ [("c", "category"), ("t", "text_similarity")],
      p.2 ∈ ["text_similarity", "recency", "number", "category"]) ∧
    (List.any [("c", "category"), ("t", "text_similarity")]
      (fun p => p.2 == "text_similarity") = true) ∧
    create_index_validate true "data.csv" [("c", "category"), ("t", "text_similarity")]
      = .errorInvalidSpaceType "c" "category" ∧
    create_index_validate true "data.csv" [("c", "category"), ("t", "text_similarity")]
      ≠ .proceed := by
  refine ⟨by decide, by decide, rfl, by decide⟩

/-- C7 (amended): the validating create_index tool accepts a column_mapping
exactly when the source file exists, every role lies in the closed set
{text_similarity, recency, number}, and some column carries
text_similarity; every other input yields a structured error outcome. -/
theorem create_index_validation_exact (fileExists : Bool) (csv_path : String)
    (m : List (String × String)) :
    create_index_validate fileExists csv_path m = .proceed ↔
      (fileExists = true ∧ (∀ p ∈ m, p.2 ∈ valid_types) ∧
        ∃ p ∈ m, p.2 = "text_similarity") := by
  unfold create_index_validate
  cases fileExists with
  | false => simp
  | true =>
    simp only [Bool.not_true, Bool.false_eq_true, if_false, true_and]
    cases hf : m.find? (fun p => !(valid_types.contains p.2)) with
    | none =>
      rw [List.find?_eq_none] at hf
      have hall : ∀ p ∈ m, p.2 ∈ valid_types := by
        intro p hp
        have := hf p hp
        simpa using this
      by_cases ha : (m.any fun p => p.2 == "text_similarity") = true
      · refine iff_of_true (by simp [ha]) ?_
        simp only [List.any_eq_true, beq_iff_eq] at ha
        exact ⟨hall, ha⟩
      · refine iff_of_false (by simp [ha]) ?_
        rintro ⟨-, p, hp, hptext⟩
        exact absurd (List.any_eq_true.mpr ⟨p, hp, by simp [hptext]⟩) ha
    | some p =>
      have hmem : p ∈ m := List.mem_of_find?_eq_some hf
      have hp := List.find?_some hf
      refine iff_of_false (by simp) ?_
      rintro ⟨hall, -⟩
      have hc := hall p hmem
      simp at hp
      exact hp hc

/-- C8: row-by-row ingest counts each row exactly once, as a success or an
error, without raising: for every response oracle, mapping and row list,
ingested + errors equals the number of rows; and for the concrete
three-row batch whose second row has a malformed recency timestamp the
summary is {ingested: 2, errors: 1}. -/
theorem ingest_counts_sum :
    (∀ (respond : List (String × PVal) → ℕ)
       (column_mapping : List (String × String)) (rows : List Row),
       (ingest_csv_data respond column_mapping rows).1 +
         (ingest_csv_data respond column_mapping rows).2 = rows.length) ∧
    ingest_csv_data (fun _ => 200)
      [("body", "text_similarity"), ("ts", "recency")]
      [[("id", some (.str "1")), ("body", some (.str "hello")), ("ts", some (.num 5))],
       [("id", some (.str "2")), ("body", some (.str "bye")), ("ts", some (.str "oops"))],
       [("id", some (.str "3")), ("body", some (.str "hi")), ("ts", some (.num 7))]]
      = (2, 1) := by
  constructor
  · intro respond column_mapping rows
    suffices h : ∀ (rs : List Row) (i e : ℕ),
        (ingest_loop respond column_mapping rs i e).1 +
          (ingest_loop respond column_mapping rs i e).2 = i + e + rs.length by
      simpa [ingest_csv_data] using h rows 0 0
    intro rs
    induction rs with
    | nil => intro i e; simp [ingest_loop]
    | cons r rest ih =>
      intro i e
      unfold ingest_loop
      cases build_row_dict column_mapping r with
      | none => rw [ih]; simp; omega
      | some payload =>
        by_cases hst : (respond payload == 200 || respond payload == 202) = true <;>
          simp only [hst, if_true, if_false, Bool.false_eq_true] <;> rw [ih] <;>
          simp <;> omega
  · rfl

theorem create_spaces_loop_eq (df : Option DataFrame) (l : List (String × String)) :
    ∀ (spaces : List Space) (weights : List (String × ℚ)) (ts : Option Space),
      create_spaces_loop df l spaces weights ts =
        (spaces ++ l.filterMap (constructSpace df),
         weights ++ l.filterMap (constructWeight df),
         ts.or ((l.find? (fun p => p.2 == "text_similarity")).map
           (fun p => (create_text_space p.1).1))) := by
  induction l with
  | nil => intro spaces weights ts; simp [create_spaces_loop]
  | cons hd tl ih =>
    intro spaces weights ts
    obtain ⟨col, st⟩ := hd
    by_cases h1 : (st == "text_similarity") = true
    · cases ts <;>
        simp [create_spaces_loop, h1, ih, constructSpace, constructWeight,
          List.find?_cons, Option.or]
    · have h1f : (st == "text_similarity") = false := by simpa using h1
      by_cases h2 : (st == "recency") = true
      · simp [create_spaces_loop, h1f, h2, ih, constructSpace, constructWeight,
          List.find?_cons]
      · have h2f : (st == "recency") = false := by simpa using h2
        by_cases h3 : (st == "number") = true
        · simp [create_spaces_loop, h1f, h2f, h3, ih, constructSpace, constructWeight,
            List.find?_cons]
        · have h3f : (st == "number") = false := by simpa using h3
          by_cases h4 : (st == "category") = true
          · cases hc : create_category_space df col with
            | none =>
              simp [create_spaces_loop, h1f, h2f, h3f, h4, hc, ih, constructSpace,
                constructWeight, List.find?_cons]
            | some sw =>
              simp [create_spaces_loop, h1f, h2f, h3f, h4, hc, ih, constructSpace,
                constructWeight, List.find?_cons]
          · have h4f : (st == "category") = false := by simpa using h4
            simp [create_spaces_loop, h1f, h2f, h3f, h4f, ih, constructSpace,
              constructWeight, List.find?_cons]

theorem gen_app_text_space_eq_find (l : List (String × String)) :
    gen_app_text_space l =
      (l.find? (fun p => p.2 == "text_similarity")).map (fun p => p.1 ++ "_space") := by
  induction l with
  | nil => rfl
  | cons hd tl ih =>
    obtain ⟨col, st⟩ := hd
    by_cases h : (st == "text_similarity") = true
    · simp [gen_app_text_space, List.find?_cons, h]
    · have hf : (st == "text_similarity") = false := by simpa using h
      simp [gen_app_text_space, List.find?_cons, hf, ih]

/-- C1: the anchor text space retained by `create_spaces` is the space built
for the first column with role text_similarity in mapping iteration order
(and the generated-app-file anchor is that same first column), and for
every mapping with no text_similarity entry `create_query` returns none. -/
theorem anchor_first_text_and_query_none
    (column_mapping : List (String × String)) (df : Option DataFrame) :
    (create_spaces column_mapping df).2.2 =
      (column_mapping.find? (fun p => p.2 == "text_similarity")).map
        (fun p => (create_text_space p.1).1) ∧
    gen_app_text_space column_mapping =
      (column_mapping.find? (fun p => p.2 == "text_similarity")).map
        (fun p => p.1 ++ "_space") ∧
    ((∀ p ∈ column_mapping, p.2 ≠ "text_similarity") →
      ∀ (index : Index) (schema : Schema) (index_name : String),
        create_query index schema (create_spaces column_mapping df).2.1
          (create_spaces column_mapping df).2.2 index_name = none) := by
  have hmain : (create_spaces column_mapping df).2.2 =
      (column_mapping.find? (fun p => p.2 == "text_similarity")).map
        (fun p => (create_text_space p.1).1) := by
    unfold create_spaces
    rw [create_spaces_loop_eq]
    rfl
  refine ⟨hmain, gen_app_text_space_eq_find column_mapping, ?_⟩
  intro h index schema index_name
  have hfind : column_mapping.find? (fun p => p.2 == "text_similarity") = none := by
    rw [List.find?_eq_none]
    intro p hp
    simpa using h p hp
  rw [hmain, hfind]
  rfl

/-- Witness for C1 at a mapping with no text_similarity entry. -/
theorem anchor_first_text_witness :
    create_query (Index.mk []) ⟨"XSchema", [("id", .idField)]⟩
      (create_spaces [("a", "number")] none).2.1
      (create_spaces [("a", "number")] none).2.2 "idx" = none :=
  (anchor_first_text_and_query_none [("a", "number")] none).2.2
    (by decide) (Index.mk []) ⟨"XSchema", [("id", .idField)]⟩ "idx"

/-- C2: `create_spaces` yields exactly one space per mapped column whose
role had constructible inputs and none for a column whose role could not
be constructed (the per-column rule is `constructSpace`, which skips a
category column with no available data), and whenever zero spaces result,
`process_single_index` signals failure with no index, query or sources. -/
theorem spaces_one_per_constructible :
    (∀ (column_mapping : List (String × String)) (df : Option DataFrame),
      (create_spaces column_mapping df).1 =
        column_mapping.filterMap (constructSpace df)) ∧
    (∀ (files : String → Option DataFrame) (index_name : String) (meta : Metadata),
      (create_spaces meta.column_mapping
        (load_csv_if_needed files meta.csv_filename meta.column_mapping)).1 = [] →
      process_single_index files index_name meta = (none, none, [])) := by
  constructor
  · intro column_mapping df
    unfold create_spaces
    rw [create_spaces_loop_eq]
    rfl
  · intro files index_name meta h
    unfold process_single_index
    by_cases he : meta.column_mapping.isEmpty = true
    · simp [he]
    · simp only [he, if_false, Bool.false_eq_true]
      rw [show (create_spaces meta.column_mapping
          (load_csv_if_needed files meta.csv_filename meta.column_mapping)).1.isEmpty
            = true by simp [h]]
      simp

/-- Witness for C2's failure case: a single category column with no data
yields zero spaces and process_single_index fails. -/
theorem spaces_zero_failure_witness :
    process_single_index (fun _ => none) "idx" ⟨some "f.csv", [("c", "category")]⟩
      = (none, none, []) :=
  spaces_one_per_constructible.2 (fun _ => none) "idx"
    ⟨some "f.csv", [("c", "category")]⟩ (by decide)

/-- C3: for an index whose metadata artifact already exists, create with
recreate=false leaves the whole state unchanged and reports status
"exists"; create with recreate=true replaces the prior artifact with the
freshly generated one and leaves the default collection holding exactly
the newly loaded data (or nothing, when the loader trigger failed) — in
either case none of the previously ingested data survives. -/
theorem recreate_semantics
    (files : String → Option DataFrame) (loaderOk : Bool) (s : SysState)
    (csv_path : String) (m : List (String × String))
    (w : Option (List (String × ℚ))) (df : DataFrame)
    (hfile : files csv_path = some df)
    (hexists : (s.workFiles.find?
      (fun p => p.1 == app_file_name (pathStem csv_path))).isSome = true) :
    create_index_and_load files loaderOk s csv_path m w false =
      (s, .ok { status := "exists", index_name := pathStem csv_path,
                document_count := none,
                message := existsMessage (pathStem csv_path) }) ∧
    ((create_index_and_load files loaderOk s csv_path m w true).1.workFiles.filter
        (fun p => p.1 == app_file_name (pathStem csv_path)) =
      [(app_file_name (pathStem csv_path),
        generate_app_file_content (pathStem csv_path) m w csv_path)]) ∧
    ((create_index_and_load files loaderOk s csv_path m w true).1.qdrantCollections.find?
        (fun p => p.1 == "default") =
      if loaderOk then some ("default", [df]) else none) := by
  refine ⟨?_, ?_, ?_⟩
  · simp only [create_index_and_load, hfile, hexists, if_true, Bool.false_eq_true,
      if_false]
  · simp only [create_index_and_load, hfile, hexists, if_true, create_fresh,
      pkillServer, deleteCollection, start_superlinked_server_state,
      loadIntoCollection]
    cases loaderOk with
    | false =>
      simp only [Bool.false_eq_true, if_false, List.filter_append]
      rw [filter_of_antifilter]
      simp
    | true =>
      simp only [if_true, List.filter_append]
      rw [filter_of_antifilter]
      simp
  · simp only [create_index_and_load, hfile, hexists, if_true, create_fresh,
      pkillServer, deleteCollection, start_superlinked_server_state,
      loadIntoCollection]
    cases loaderOk with
    | false =>
      simp only [Bool.false_eq_true, if_false]
      exact find?_of_antifilter _ _
    | true =>
      simp only [if_true]
      rw [find?_of_antifilter]
      simp only [Option.isSome_none, Bool.false_eq_true, if_false]
      rw [find?_append_none _ _ _ (find?_of_antifilter _ _)]
      simp

/-- Witness for C3 at a concrete prior state holding an old artifact and
old ingested data for index "data". -/
theorem recreate_semantics_witness :
    create_index_and_load c3files true c3state "data.csv"
        [("t", "text_similarity")] none false =
      (c3state, .ok { status := "exists", index_name := "data",
                      document_count := none,
                      message := existsMessage "data" }) ∧
    ((create_index_and_load c3files true c3state "data.csv"
        [("t", "text_similarity")] none true).1.workFiles.filter
        (fun p => p.1 == "app_data.py") =
      [("app_data.py",
        generate_app_file_content "data" [("t", "text_similarity")] none "data.csv")]) ∧
    ((create_index_and_load c3files true c3state "data.csv"
        [("t", "text_similarity")] none true).1.qdrantCollections.find?
        (fun p => p.1 == "default") = some ("default", [c3df])) := by
  have h := recreate_semantics c3files true c3state "data.csv"
    [("t", "text_similarity")] none c3df (by rfl) (by decide)
  exact ⟨h.1, h.2.1, h.2.2⟩

/-- C4 counterexample: with one existing index "bar", querying the missing
index "foo" raises a not-found error whose message does not include the
existing index list — "bar" does not occur in it. -/
theorem query_not_found_counterexample :
    list_indexes c4State = ["bar"] ∧
    query_index_check "/work" c4State "foo" = some c4Msg ∧
    strContains c4Msg "bar" = false := by
  refine ⟨by decide, rfl, by decide⟩

/-- C4 (amended): querying an index whose metadata artifact does not exist
raises an explicit not-found error naming the missing index and the
expected artifact path; the list of existing indexes is not part of the
message (it is available separately through list_indexes). -/
theorem query_not_found_names_index
    (work_dir : String) (s : SysState) (index_name : String)
    (h : (s.workFiles.find? (fun p => p.1 == app_file_name index_name)).isSome
      = false) :
    query_index_check work_dir s index_name =
      some ("Index " ++ sq ++ index_name ++ sq ++ " not found. App file " ++
        work_dir ++ "/app_" ++ index_name ++ ".py does not exist.") ∧
    ∀ msg, query_index_check work_dir s index_name = some msg →
      strContains msg index_name = true := by
  have hmsg : query_index_check work_dir s index_name =
      some ("Index " ++ sq ++ index_name ++ sq ++ " not found. App file " ++
        work_dir ++ "/app_" ++ index_name ++ ".py does not exist.") := by
    unfold query_index_check
    simp [h]
  refine ⟨hmsg, ?_⟩
  intro msg hm
  rw [hmsg] at hm
  obtain rfl : _ = msg := Option.some.inj hm
  have h1 : strContains
      ("Index " ++ (sq ++ (index_name ++ (sq ++ " not found. App file " ++
        work_dir ++ "/app_" ++ index_name ++ ".py does not exist."))))
      index_name = true :=
    strContains_cons _ _ _ (strContains_cons _ _ _ (strContains_here _ _))
  simpa [str_append_assoc] using h1

/-- Witness for C4's amended theorem on the empty state. -/
theorem query_not_found_witness :
    query_index_check "/w" ⟨[], [], none⟩ "x" =
      some ("Index " ++ sq ++ "x" ++ sq ++ " not found. App file " ++
        "/w" ++ "/app_" ++ "x" ++ ".py does not exist.") ∧
    ∀ msg, query_index_check "/w" ⟨[], [], none⟩ "x" = some msg →
      strContains msg "x" = true :=
  query_not_found_names_index "/w" ⟨[], [], none⟩ "x" (by decide)

end Superlinked
